import Mathlib

/-!
Shallow embedding of the client-side authentication core of the
spillrix-share-stream repository: the session store (the AuthContext
provider, in its two observed revisions), the AuthGuard access-guard
component, the storage cleanup routine, and the auth operations
(signUp, signIn, signOut, useAuth). Each definition is translated from
the TypeScript source; theorems settle the behavioural claims about it.
-/

/-- Application-level profile row (interface Profile in the source):
id, email, name, role, created_at, all strings. -/
structure Profile where
  id : String
  email : String
  name : String
  role : String
  created_at : String
deriving DecidableEq, Repr

/-- Authenticated user as consumed by the auth context: stable id, email,
optional metadata display name (user_metadata?.name), creation timestamp. -/
structure AuthUser where
  id : String
  email : String
  metadataName : Option String
  created_at : String
deriving DecidableEq, Repr

/-- Identity-provider session; carries its authenticated user
(session.user in the source). -/
structure Session where
  user : AuthUser
deriving DecidableEq, Repr

/-- The hardcoded bootstrap-admin address compared against user.email in
both revisions of the fallback-profile logic. -/
def bootstrapAdminEmail : String := "linkpointtrivedi480@gmail.com"

/-- JS-truthiness reading of user.user_metadata?.name with the fallback
string: an absent or empty name falls back to the literal used in the
source. -/
def metadataNameOrDefault (m : Option String) : String :=
  match m with
  | some n => if n = "" then "User" else n
  | none => "User"

/-- Role defaulting rule of the fallback profile: admin for the hardcoded
bootstrap email, artist otherwise. -/
def defaultRole (u : AuthUser) : String :=
  if u.email = bootstrapAdminEmail then "admin" else "artist"

/-- The synthesized fallback profile built when the profiles query returns
an error: id, email, metadata name (or the default), defaulted role, and
the user creation timestamp. -/
def fallbackProfile (u : AuthUser) : Profile :=
  { id := u.id
    email := u.email
    name := metadataNameOrDefault u.metadataName
    role := defaultRole u
    created_at := u.created_at }

/-- How the profiles query settles: a data row, an error result returned
by the query (for example, row not found), or a thrown exception (for
example, a network failure). -/
inductive FetchOutcome where
  | success (p : Profile)
  | lookupError
  | thrown
deriving DecidableEq, Repr

/-- Revision 1 fetchUserProfile: the value the profile state holds once
the fetch has settled with outcome r. On a returned query error it sets
the synthesized fallback; in the catch branch (thrown exception) it sets
the profile to null. -/
def fetchUserProfile (u : AuthUser) (r : FetchOutcome) : Option Profile :=
  match r with
  | .success p => some p
  | .lookupError => some (fallbackProfile u)
  | .thrown => none

/-- Revision 2 deferred profile task (the body scheduled with a zero-delay
timer): on success or query error it sets the profile; the catch branch
only logs, leaving the previous profile value in place. -/
def profileTaskRev2 (u : AuthUser) (r : FetchOutcome) (prev : Option Profile) :
    Option Profile :=
  match r with
  | .success p => some p
  | .lookupError => some (fallbackProfile u)
  | .thrown => prev

/-- Concrete non-admin user used to evaluate the code on specific inputs. -/
def artistUser : AuthUser :=
  { id := "user-1"
    email := "artist@example.com"
    metadataName := some "Artist"
    created_at := "2025-01-01T00:00:00Z" }

/-- Concrete user carrying the bootstrap-admin email. -/
def adminUser : AuthUser :=
  { id := "user-0"
    email := "linkpointtrivedi480@gmail.com"
    metadataName := none
    created_at := "2025-01-02T00:00:00Z" }

/-- C1: the profile non-null invariant fails on the thrown-exception path.
With a non-null user whose profile fetch settles by throwing, revision 1
sets the profile to null and the revision 2 task leaves a null profile
null; the invariant does hold on the success and lookup-error paths. -/
theorem c1_profile_null_on_thrown :
    fetchUserProfile artistUser .thrown = none ∧
    profileTaskRev2 artistUser .thrown none = none ∧
    (fetchUserProfile artistUser .lookupError).isSome = true ∧
    ∀ p : Profile, (fetchUserProfile artistUser (.success p)).isSome = true := by
  refine ⟨rfl, rfl, rfl, fun p => rfl⟩

/-- C2: on a returned lookup error both revisions set exactly the
synthesized record (admin role for the bootstrap email, artist otherwise,
metadata name defaulting to the fallback string), but on a thrown
exception neither revision sets that record: revision 1 yields null and
the revision 2 task keeps the previous null. -/
theorem c2_fallback_profile_eval :
    fetchUserProfile adminUser .lookupError =
      some { id := "user-0"
             email := "linkpointtrivedi480@gmail.com"
             name := "User"
             role := "admin"
             created_at := "2025-01-02T00:00:00Z" } ∧
    fetchUserProfile artistUser .lookupError =
      some { id := "user-1"
             email := "artist@example.com"
             name := "Artist"
             role := "artist"
             created_at := "2025-01-01T00:00:00Z" } ∧
    profileTaskRev2 adminUser .lookupError none =
      some (fallbackProfile adminUser) ∧
    fetchUserProfile artistUser .thrown = none ∧
    profileTaskRev2 artistUser .thrown none = none := by
  refine ⟨?_, ?_, rfl, rfl, rfl⟩ <;> decide

/-- Session store state of revision 1 of the provider: nullable user,
session and profile, the loading flag, and the isInitialized flag. -/
structure StoreState where
  user : Option AuthUser
  session : Option Session
  profile : Option Profile
  loading : Bool
  isInitialized : Bool
deriving DecidableEq, Repr

/-- Initial provider state: all identity fields null, loading false,
isInitialized false. -/
def initialStoreState : StoreState :=
  { user := none
    session := none
    profile := none
    loading := false
    isInitialized := false }

/-- Revision 1 onAuthStateChange handler, observed once its inline profile
fetch has settled with outcome r: the session and user come from the
event; with a user present the profile is whatever fetchUserProfile
produced and loading ends false (the finally clause); with no user the
profile is cleared and loading is untouched; isInitialized is set to true
when it was false, hence is true afterwards in every case. -/
def handleAuthChange (st : StoreState) (s : Option Session) (r : FetchOutcome) :
    StoreState :=
  let u := s.map Session.user
  { st with
    session := s
    user := u
    profile := match u with
      | some usr => fetchUserProfile usr r
      | none => none
    loading := match u with
      | some _ => false
      | none => st.loading
    isInitialized := true }

/-- Events the store state reacts to: a provider notification (with the
settling outcome of the profile fetch it may trigger), and the three auth
operations. signIn and signUp never mutate store state; signOut clears
the three identity fields. -/
inductive StoreEvent where
  | notify (s : Option Session) (r : FetchOutcome)
  | signOutOp
  | signInOp
  | signUpOp
deriving DecidableEq, Repr

/-- One step of the revision 1 store under an event. -/
def stepStore (st : StoreState) : StoreEvent → StoreState
  | .notify s r => handleAuthChange st s r
  | .signOutOp => { st with user := none, session := none, profile := none }
  | .signInOp => st
  | .signUpOp => st

/-- Run the store over a sequence of events. -/
def runStore (st : StoreState) (es : List StoreEvent) : StoreState :=
  es.foldl stepStore st

/-- Whether an event is an identity-provider notification. -/
def isNotify : StoreEvent → Bool
  | .notify _ _ => true
  | _ => false

/-- A single step sets isInitialized exactly when it was already set or
the event is a notification: notifications force it true, operations
leave it unchanged. -/
theorem stepStore_isInitialized (st : StoreState) (e : StoreEvent) :
    (stepStore st e).isInitialized = (st.isInitialized || isNotify e) := by
  cases e with
  | notify s r => simp [stepStore, handleAuthChange, isNotify]
  | signOutOp => simp [stepStore, isNotify]
  | signInOp => simp [stepStore, isNotify]
  | signUpOp => simp [stepStore, isNotify]

/-- Over a run, isInitialized holds exactly when it held at the start or
some notification occurred. -/
theorem runStore_isInitialized (es : List StoreEvent) (st : StoreState) :
    (runStore st es).isInitialized = (st.isInitialized || es.any isNotify) := by
  induction es generalizing st with
  | nil => simp [runStore]
  | cons e es ih =>
      have hstep : runStore st (e :: es) = runStore (stepStore st e) es := rfl
      rw [hstep, ih, stepStore_isInitialized, List.any_cons, Bool.or_assoc]

/-- C4: isInitialized starts false, each step turns it on exactly when
the event is a notification (so it is true right after the first
notification), and over any event sequence from the initial state it is
true exactly when the sequence contains a notification, so no later
notification or operation ever resets it. -/
theorem c4_initialized_monotone (st : StoreState) (e : StoreEvent)
    (es : List StoreEvent) :
    initialStoreState.isInitialized = false ∧
    (stepStore st e).isInitialized = (st.isInitialized || isNotify e) ∧
    (runStore initialStoreState es).isInitialized = es.any isNotify := by
  refine ⟨rfl, stepStore_isInitialized st e, ?_⟩
  rw [runStore_isInitialized]
  rfl

/-- isAdmin derivation in the provider: the profile role equals admin,
false when the profile is null. -/
def isAdminOf (profile : Option Profile) : Bool :=
  match profile with
  | some p => p.role == "admin"
  | none => false

/-- A navigation issued by the guard effect: target path, the replace
flag, and whether the navigation carries the originally requested
location (the state with the from field, rule 1 only). -/
structure Navigation where
  path : String
  replace : Bool
  withFrom : Bool
deriving DecidableEq, Repr

/-- AuthGuard effect body: the chain of early-returning if statements of
the useEffect, evaluated top to bottom, producing at most one navigation.
While isInitialized is false it returns before any rule. -/
def authGuardEffect (requireAuth requireAdmin : Bool) (user : Option AuthUser)
    (profile : Option Profile) (isAdmin : Bool) (isInitialized : Bool)
    (pathname : String) : Option Navigation :=
  if !isInitialized then none
  else if requireAuth && user.isNone then
    some { path := "/auth", replace := true, withFrom := true }
  else if requireAdmin && (user.isNone || !isAdmin) then
    some { path := "/", replace := true, withFrom := false }
  else if user.isSome && profile.isSome && pathname == "/auth" then
    some { path := if isAdmin then "/admin" else "/dashboard"
           replace := true, withFrom := false }
  else if user.isSome && profile.isSome && pathname == "/" then
    some { path := if isAdmin then "/admin" else "/dashboard"
           replace := true, withFrom := false }
  else none

/-- What the AuthGuard renders. -/
inductive GuardRender where
  | placeholder
  | children
deriving DecidableEq, Repr

/-- AuthGuard render body: the loading placeholder when loading is true or
isInitialized is false, the children otherwise. -/
def authGuardRender (loading isInitialized : Bool) : GuardRender :=
  if loading || !isInitialized then .placeholder else .children

/-- C3: with requireAuth and requireAdmin both true, a null user and the
store initialized, the guard issues exactly one navigation: the rule 1
redirect to the sign-in route carrying the requested location, never the
rule 2 redirect to root, whatever the profile, isAdmin flag or current
route are. -/
theorem c3_guard_priority (profile : Option Profile) (isAdmin : Bool)
    (pathname : String) :
    authGuardEffect true true none profile isAdmin true pathname =
      some { path := "/auth", replace := true, withFrom := true } := rfl

/-- C5: whenever loading is true or isInitialized is false the guard
renders the loading placeholder rather than its children, and while
isInitialized is false the guard effect issues no navigation at all. -/
theorem c5_loading_placeholder (loading isInitialized requireAuth requireAdmin : Bool)
    (user : Option AuthUser) (profile : Option Profile) (isAdmin : Bool)
    (pathname : String)
    (h : loading = true ∨ isInitialized = false) :
    authGuardRender loading isInitialized = .placeholder ∧
    (isInitialized = false →
      authGuardEffect requireAuth requireAdmin user profile isAdmin
        isInitialized pathname = none) := by
  constructor
  · rcases h with h | h <;> subst h <;> simp [authGuardRender]
  · intro h2
    subst h2
    simp [authGuardEffect]

/-- Witness for C5 at a concrete uninitialized state. -/
theorem c5_loading_placeholder_witness :
    authGuardRender false false = .placeholder ∧
    (false = false →
      authGuardEffect false false none none false false "/" = none) :=
  c5_loading_placeholder false false false false none none false "/" (Or.inr rfl)

/-- Containment of a character sequence in another, the semantics of the
JS includes test on strings: the pattern occurs as a contiguous run. -/
def containsSeq : List Char → List Char → Bool
  | pat, [] => pat.isEmpty
  | pat, c :: t => pat.isPrefixOf (c :: t) || containsSeq pat t

/-- Key predicate of cleanupAuthState: the key starts with the
supabase.auth. literal or contains the sb- literal, exactly the
startsWith/includes pair used on every enumerated storage key. -/
def authKeyMatches (key : String) : Bool :=
  "supabase.auth.".data.isPrefixOf key.data || containsSeq "sb-".data key.data

/-- Effect of the cleanup loop on one storage: every matching key is
removed, every other key is left in place. -/
def cleanupAuthKeys (keys : List String) : List String :=
  keys.filter (fun k => !authKeyMatches k)

/-- cleanupAuthState storage phase: both durable and session-scoped
storages get the same key removal. -/
def cleanupAuthState (localKeys sessionKeys : List String) :
    List String × List String :=
  (cleanupAuthKeys localKeys, cleanupAuthKeys sessionKeys)

/-- C7: a key survives Cleanup in either storage exactly when it was there
and does not match the provider key convention, so exactly the matching
keys are removed from both storages; on the concrete triple, the sb- key
and the supabase.auth. key go and the unrelated key stays. -/
theorem c7_cleanup_key_matching (localKeys sessionKeys : List String)
    (k : String) :
    (k ∈ (cleanupAuthState localKeys sessionKeys).1 ↔
      k ∈ localKeys ∧ authKeyMatches k = false) ∧
    (k ∈ (cleanupAuthState localKeys sessionKeys).2 ↔
      k ∈ sessionKeys ∧ authKeyMatches k = false) ∧
    cleanupAuthState ["sb-xyz-auth-token", "supabase.auth.token", "unrelated-key"]
        ["sb-xyz-auth-token", "supabase.auth.token", "unrelated-key"] =
      (["unrelated-key"], ["unrelated-key"]) := by
  refine ⟨?_, ?_, by decide⟩ <;>
    simp [cleanupAuthState, cleanupAuthKeys, List.mem_filter]

/-- Witness for C7 at a concrete storage state. -/
theorem c7_cleanup_key_matching_witness :
    ("unrelated-key" ∈ (cleanupAuthState ["unrelated-key"] []).1 ↔
      "unrelated-key" ∈ ["unrelated-key"] ∧
        authKeyMatches "unrelated-key" = false) ∧
    ("unrelated-key" ∈ (cleanupAuthState ["unrelated-key"] []).2 ↔
      "unrelated-key" ∈ ([] : List String) ∧
        authKeyMatches "unrelated-key" = false) ∧
    cleanupAuthState ["sb-xyz-auth-token", "supabase.auth.token", "unrelated-key"]
        ["sb-xyz-auth-token", "supabase.auth.token", "unrelated-key"] =
      (["unrelated-key"], ["unrelated-key"]) :=
  c7_cleanup_key_matching ["unrelated-key"] [] "unrelated-key"

/-- Provider error as consumed by signUp and signIn: only the message is
inspected. -/
structure ProviderError where
  message : String
deriving DecidableEq, Repr

/-- Toast notification surfaced to the user, modelled by title and
variant. -/
structure ToastMsg where
  title : String
  variant : String
deriving DecidableEq, Repr

/-- How the provider signUp call settles: success, an error result, or a
thrown exception. -/
inductive SignUpProviderOutcome where
  | ok
  | err (e : ProviderError)
  | thrown (e : ProviderError)
deriving DecidableEq, Repr

/-- The substring test on the provider error message that selects the
soft-success branch of signUp. -/
def messageIndicatesEmailFailure (e : ProviderError) : Bool :=
  containsSeq "Error sending confirmation email".data e.message.data

/-- Toast shown on the soft-success branch of signUp. -/
def emailIssueToast : ToastMsg :=
  { title := "Account created with email issue", variant := "default" }

/-- Toast shown on a hard signUp failure. -/
def signUpFailedToast : ToastMsg :=
  { title := "Sign up failed", variant := "destructive" }

/-- Toast shown on full signUp success. -/
def accountCreatedToast : ToastMsg :=
  { title := "Account created!", variant := "default" }

/-- Value returned by signUp together with the toast it raised. -/
structure SignUpResult where
  error : Option ProviderError
  toastShown : Option ToastMsg
deriving DecidableEq, Repr

/-- signUp outcome handling: on success, no error and the success toast;
on a provider error whose message contains the confirmation-email phrase,
no error and the warning toast (soft success); on any other provider
error, that error and the destructive toast; on a thrown exception, the
caught value is returned as the error with no toast. -/
def signUp (r : SignUpProviderOutcome) : SignUpResult :=
  match r with
  | .ok => { error := none, toastShown := some accountCreatedToast }
  | .err e =>
      if messageIndicatesEmailFailure e then
        { error := none, toastShown := some emailIssueToast }
      else
        { error := some e, toastShown := some signUpFailedToast }
  | .thrown e => { error := some e, toastShown := none }

/-- C8: a provider error whose message indicates the confirmation email
could not be sent yields a soft success, no returned error plus the
warning toast, and every other provider error is returned as a hard
failure. -/
theorem c8_signup_soft_success (e : ProviderError) :
    (messageIndicatesEmailFailure e = true →
      signUp (.err e) = { error := none, toastShown := some emailIssueToast }) ∧
    (messageIndicatesEmailFailure e = false →
      signUp (.err e) =
        { error := some e, toastShown := some signUpFailedToast }) := by
  constructor <;> intro h <;> simp [signUp, h]

/-- Concrete provider error with the confirmation-email message. -/
def emailFailError : ProviderError :=
  { message := "Error sending confirmation email: smtp failure" }

/-- Concrete provider error unrelated to email delivery. -/
def otherError : ProviderError :=
  { message := "User already registered" }

/-- Witness for C8 on both branches at concrete provider errors. -/
theorem c8_signup_soft_success_witness :
    signUp (.err emailFailError) =
      { error := none, toastShown := some emailIssueToast } ∧
    signUp (.err otherError) =
      { error := some otherError, toastShown := some signUpFailedToast } :=
  ⟨(c8_signup_soft_success emailFailError).1 (by decide),
   (c8_signup_soft_success otherError).2 (by decide)⟩

/-- Provider-side global session revocation attempted by cleanupAuthState,
parametrized by whether the provider call fails. -/
def attemptGlobalRevoke (revokeFails : Bool) : Except String Unit :=
  if revokeFails then .error "Global signout failed" else .ok ()

/-- Full cleanupAuthState run: clears both storages, then attempts the
global revocation inside its own try block whose catch swallows the
failure, so the cleared storages are the outcome either way. -/
def cleanupAuthStateRun (revokeFails : Bool) (localKeys sessionKeys : List String) :
    List String × List String :=
  let cleared := cleanupAuthState localKeys sessionKeys
  match attemptGlobalRevoke revokeFails with
  | .ok _ => cleared
  | .error _ => cleared

/-- Toast shown by signOut. -/
def signedOutToast : ToastMsg :=
  { title := "Signed out", variant := "default" }

/-- Everything signOut produces: the store state after its synchronous
clears, both storages after Cleanup, the navigation target assigned to
the location, and the toast raised. -/
structure SignOutResult where
  state : StoreState
  localKeys : List String
  sessionKeys : List String
  navigatedTo : Option String
  toastShown : Option ToastMsg
deriving DecidableEq, Repr

/-- signOut body: run cleanupAuthState first, then synchronously clear
user, session and profile without waiting for a provider notification,
raise the toast, and assign the root route to the location. -/
def signOut (revokeFails : Bool) (st : StoreState)
    (localKeys sessionKeys : List String) : SignOutResult :=
  let storages := cleanupAuthStateRun revokeFails localKeys sessionKeys
  { state := { st with user := none, session := none, profile := none }
    localKeys := storages.1
    sessionKeys := storages.2
    navigatedTo := some "/"
    toastShown := some signedOutToast }

/-- C9: from any store state, already signed out included, signOut leaves
user, session and profile null, has run Cleanup on both storages, and
navigates to the root route; its outcome is the same whether or not the
provider revocation fails, so the one failable collaborator call never
surfaces as a thrown error. -/
theorem c9_signout_idempotent (revokeFails : Bool) (st : StoreState)
    (localKeys sessionKeys : List String) :
    (signOut revokeFails st localKeys sessionKeys).state.user = none ∧
    (signOut revokeFails st localKeys sessionKeys).state.session = none ∧
    (signOut revokeFails st localKeys sessionKeys).state.profile = none ∧
    (signOut revokeFails st localKeys sessionKeys).localKeys =
      cleanupAuthKeys localKeys ∧
    (signOut revokeFails st localKeys sessionKeys).sessionKeys =
      cleanupAuthKeys sessionKeys ∧
    (signOut revokeFails st localKeys sessionKeys).navigatedTo = some "/" ∧
    signOut true st localKeys sessionKeys =
      signOut false st localKeys sessionKeys := by
  cases revokeFails <;>
    simp [signOut, cleanupAuthStateRun, cleanupAuthState, attemptGlobalRevoke]

/-- The context value exposed by the provider, data fields only. -/
structure AuthContextValue where
  user : Option AuthUser
  session : Option Session
  profile : Option Profile
  loading : Bool
  isInitialized : Bool
  isAdmin : Bool
deriving DecidableEq, Repr

/-- useAuth hook: with no surrounding provider the context is undefined
and the hook throws; under a provider it returns the context value. -/
def useAuth (ctx : Option AuthContextValue) : Except String AuthContextValue :=
  match ctx with
  | none => .error "useAuth must be used within an AuthProvider"
  | some c => .ok c

/-- C10: outside an AuthProvider the hook always throws the fixed error
message and never returns a value; under a provider it returns the
context value and never throws. -/
theorem c10_useauth_contract (c : AuthContextValue) :
    useAuth none = .error "useAuth must be used within an AuthProvider" ∧
    useAuth (some c) = .ok c :=
  ⟨rfl, rfl⟩

/-- Session store state of revision 2 of the provider, which has no
isInitialized flag. -/
structure StoreStateRev2 where
  user : Option AuthUser
  session : Option Session
  profile : Option Profile
  loading : Bool
deriving DecidableEq, Repr

/-- A task scheduled for a later queue turn. -/
inductive DeferredTask where
  | profileFetch (u : AuthUser)
deriving DecidableEq, Repr

/-- What one synchronous run of the revision 2 notification callback
produces: the state after its synchronous updates, whether a profile
fetch was started inline inside the callback, and the tasks it scheduled
with a zero-delay timer for a later queue turn. -/
structure HandlerRunRev2 where
  state : StoreStateRev2
  inlineFetchStarted : Bool
  deferred : List DeferredTask
deriving DecidableEq, Repr

/-- Revision 2 onAuthStateChange callback, synchronous part: sets session
and user inline; with a user present it only schedules the profile fetch
via a zero-delay timer, starting nothing inline; with no user it clears
the profile; loading is set false at the end either way. -/
def handleAuthChangeRev2Sync (st : StoreStateRev2) (s : Option Session) :
    HandlerRunRev2 :=
  let u := s.map Session.user
  match u with
  | some usr =>
      { state := { st with session := s, user := u, loading := false }
        inlineFetchStarted := false
        deferred := [.profileFetch usr] }
  | none =>
      { state :=
          { st with
            session := s
            user := none
            profile := none
            loading := false }
        inlineFetchStarted := false
        deferred := [] }

/-- What one synchronous run of the revision 1 notification callback
produces. -/
structure HandlerRunRev1 where
  state : StoreState
  inlineFetchStarted : Bool
  deferred : List DeferredTask
deriving DecidableEq, Repr

/-- Revision 1 onAuthStateChange callback, synchronous part: sets session
and user inline, then with a user present calls fetchUserProfile directly
inside the callback, whose synchronous prefix sets loading true and
issues the profiles query before the first await yields, scheduling
nothing; with no user it clears the profile; isInitialized ends true. -/
def handleAuthChangeRev1Sync (st : StoreState) (s : Option Session) :
    HandlerRunRev1 :=
  let u := s.map Session.user
  match u with
  | some _ =>
      { state :=
          { st with
            session := s
            user := u
            loading := true
            isInitialized := true }
        inlineFetchStarted := true
        deferred := [] }
  | none =>
      { state :=
          { st with
            session := s
            user := none
            profile := none
            isInitialized := true }
        inlineFetchStarted := false
        deferred := [] }

/-- C6: for a notification carrying a user, revision 2 sets session and
user synchronously inside the callback and schedules the profile fetch as
a deferred task without starting it inline; revision 1 also sets session
and user synchronously, but starts the profile fetch inline inside the
callback and defers nothing, violating the deferral requirement. -/
theorem c6_fetch_deferral (st2 : StoreStateRev2) (st1 : StoreState) (s : Session) :
    (handleAuthChangeRev2Sync st2 (some s)).state.session = some s ∧
    (handleAuthChangeRev2Sync st2 (some s)).state.user = some s.user ∧
    (handleAuthChangeRev2Sync st2 (some s)).deferred = [.profileFetch s.user] ∧
    (handleAuthChangeRev2Sync st2 (some s)).inlineFetchStarted = false ∧
    (handleAuthChangeRev1Sync st1 (some s)).state.session = some s ∧
    (handleAuthChangeRev1Sync st1 (some s)).state.user = some s.user ∧
    (handleAuthChangeRev1Sync st1 (some s)).inlineFetchStarted = true ∧
    (handleAuthChangeRev1Sync st1 (some s)).deferred = [] :=
  ⟨rfl, rfl, rfl, rfl, rfl, rfl, rfl, rfl⟩
